import Mathlib

/-!
Verification of src/ai_interview.py against its specification.

Python strings are modelled as lists of Unicode code points (`List Nat`).
Remote effects (the HTTP scoring reply, the speech-recognition outcome,
the per-question capture result) are modelled as explicit parameters, so
each Python function becomes a pure Lean function of its inputs and of
the replies the outside world would have produced.
-/

set_option autoImplicit false

namespace AIInterview

/-- Code points of a Lean string literal; used to write concrete Python
string values readably. -/
def pyStr (s : String) : List Nat := s.data.map Char.toNat

/-- Model of the whitespace set of Python `str.strip()` with no argument,
restricted to the ASCII range the program manipulates: space (32) and the
control characters tab, LF, VT, FF, CR (9-13). -/
def isSpace (c : Nat) : Bool := (c == 32) || (decide (9 ≤ c) && decide (c ≤ 13))

/-- Remove leading whitespace code points. -/
def lstrip : List Nat → List Nat
  | [] => []
  | c :: cs => if isSpace c then lstrip cs else c :: cs

/-- Model of Python `str.strip()`: remove trailing whitespace (strip the
front of the reversed list), then leading whitespace. -/
def pyStrip (s : List Nat) : List Nat := lstrip ((lstrip s.reverse).reverse)

/-- Model of Python `str.lower()` on one code point, on the ASCII range the
program manipulates: `A`-`Z` (65-90) map 32 up, everything else is fixed. -/
def lowerCp (c : Nat) : Nat := if 65 ≤ c ∧ c ≤ 90 then c + 32 else c

/-- Model of Python `str.lower()`. -/
def pyLower (s : List Nat) : List Nat := s.map lowerCp

/-- ASCII decimal digit test. -/
def isDigit (c : Nat) : Bool := decide (48 ≤ c) && decide (c ≤ 57)

/-- Numeric value of an all-digit code-point list. -/
def digitsToNat (ds : List Nat) : Nat := ds.foldl (fun n c => 10 * n + (c - 48)) 0

/-- Model of CPython `int(s)` for a string argument: surrounding whitespace
is ignored, then an optional sign (`+` is 43, `-` is 45) followed by one or
more decimal digits; any other shape raises ValueError, modelled as `none`.
(Underscore digit grouping and non-ASCII digits are not modelled.) -/
def pyInt (s : List Nat) : Option Int :=
  match pyStrip s with
  | [] => none
  | 43 :: ds => if !ds.isEmpty && ds.all isDigit then some (digitsToNat ds) else none
  | 45 :: ds => if !ds.isEmpty && ds.all isDigit then some (-(digitsToNat ds : Int)) else none
  | ds => if ds.all isDigit then some (digitsToNat ds) else none

/-- A reply from the remote scoring endpoint (lines 68-72): the HTTP status
code, the raw body `response.text`, and the completion text found at
`response.json()["choices"][0]["message"]["content"]` when the status is
200 and the body is well-formed (the claims quantify over status and
completion text, so the body is taken to be well-formed JSON). -/
structure HttpResponse where
  status_code : Nat
  text : List Nat
  completion : List Nat
deriving DecidableEq

/-- The console warnings `score_response` can print (lines 78 and 81). -/
inductive ScoreWarning
  | unexpectedResponse (score_text : List Nat)
  | apiError (status_code : Nat) (body : List Nat)
deriving DecidableEq

/-- Lines 47-84, `score_response(user_answer, correct_answer, use_ai=True)`.
The remote reply is the `reply` parameter. Returns the Python return value
together with the warning printed, if any. With `use_ai`:
status 200 strips the completion (line 72), parses it with `int` (line 75)
and clamps with `min(max(score, 0), 10)` (line 76); a parse failure returns
0 with a warning (lines 77-79); a non-200 status returns 0 with a warning
(lines 80-82). Without `use_ai`, line 84 compares the two answers after
`.lower().strip()`. -/
def score_response (user_answer correct_answer : List Nat) (use_ai : Bool)
    (reply : HttpResponse) : Int × Option ScoreWarning :=
  if use_ai then
    if reply.status_code == 200 then
      let score_text := pyStrip reply.completion
      match pyInt score_text with
      | some score => (min (max score 0) 10, none)
      | none => (0, some (.unexpectedResponse score_text))
    else
      (0, some (.apiError reply.status_code reply.text))
  else
    (if pyStrip (pyLower user_answer) = pyStrip (pyLower correct_answer)
      then 10 else 0, none)

/-- Errors `load_questions` can raise (lines 22 and 28). -/
inductive LoadError
  | fileNotFound
  | keyError
deriving DecidableEq

/-- The frame pandas reads from the question workbook. The program consumes
a row only through `row["Question"]` and `row["Answer"]` (lines 105, 129,
130), so a row is modelled by that pair of cell values; the header list is
kept in full for the schema check. -/
structure DataFrame where
  columns : List (List Nat)
  rows : List (List Nat × List Nat)
deriving DecidableEq

/-- Lines 19-30, `load_questions()`. The file system is modelled by whether
the hard-coded path exists (`file_exists`) and by the frame `pd.read_excel`
would produce (`df`). A missing file raises FileNotFoundError (lines 21-22);
then every column name is stripped (line 25); then a KeyError is raised
unless both `"Question"` and `"Answer"` occur among the stripped names,
compared exactly as Python `in` does (lines 27-28); otherwise the renamed
frame is returned (line 30). -/
def load_questions (file_exists : Bool) (df : DataFrame) :
    Except LoadError DataFrame :=
  if !file_exists then .error .fileNotFound
  else
    let df2 : DataFrame := ⟨df.columns.map pyStrip, df.rows⟩
    if pyStr ("Question") ∉ df2.columns ∨ pyStr ("Answer") ∉ df2.columns then
      .error .keyError
    else
      .ok df2

/-- The names bound at module scope of ai_interview.py when `main` runs:
the imports of lines 1-7 — note line 6 is `import speech_recognition` with
no `as sr` alias, so it binds only the name `speech_recognition` — the
globals of lines 10 and 15, and the functions defined at lines 19, 33, 47,
87 and 97. -/
def moduleGlobals : List String :=
  ["os", "time", "sqlite3", "st", "pd", "speech_recognition", "requests",
   "openrouter_api_key", "OPENROUTER_URL", "load_questions",
   "transcribe_audio", "score_response", "save_results", "main"]

/-- Outcome of `recognizer.recognize_google(audio_data)`: recognized text,
or one of the two exceptions lines 39-44 try to handle. -/
inductive RecognizeOutcome
  | recognized (text : List Nat)
  | unknownValueError
  | requestError
deriving DecidableEq

/-- A Python call either returns a value or raises an exception, identified
here by the exception class name. -/
inductive PyOutcome (α : Type)
  | ret (val : α)
  | raises (exc : String)
deriving DecidableEq

/-- Lines 33-44, `transcribe_audio(audio_data)`. The body's first statement,
`recognizer = sr.Recognizer()` (line 34), resolves the global name `sr`,
which no statement of the module binds (line 6 imports the module without
the `as sr` alias), so every call raises NameError there, before the
recognize call or its handlers are reached. The intended handler behaviour
of lines 36-44 sits in the unreachable else branch: recognized text is
stripped and returned, and either handled exception yields the empty
string. -/
def transcribe_audio (audio_data : RecognizeOutcome) : PyOutcome (List Nat) :=
  if !(moduleGlobals.contains ("sr")) then .raises ("NameError")
  else
    match audio_data with
    | .recognized t => .ret (pyStrip t)
    | .unknownValueError => .ret []
    | .requestError => .ret []

/-- The `responses` dict of line 103: an insertion-ordered association list
from question text to (transcribed response, score). -/
abbrev Responses := List (List Nat × (List Nat × Int))

/-- One row of the `results` table (line 90). -/
structure StoredRow where
  name : List Nat
  question : List Nat
  response : List Nat
  score : Int
deriving DecidableEq

/-- Lines 87-94, `save_results(candidate_name, responses)`: one row is
inserted per dict entry, in insertion order (lines 91-92). The model
returns the sequence of inserted rows. -/
def save_results (candidate_name : List Nat) (responses : Responses) :
    List StoredRow :=
  responses.map (fun kv => ⟨candidate_name, kv.1, kv.2.1, kv.2.2⟩)

/-- Python truthiness of a string (`if candidate_name:`, line 102): true
exactly when the string is nonempty. -/
def pyTruthy (s : List Nat) : Bool := !s.isEmpty

/-- The user-visible and persistent effects of one session, in order.
Only the question header of line 105 is ever shown inside the loop: the
transcription feedback of lines 117-119 and the running score of line 131
sit after the NameError raised at line 108 and are unreachable. -/
inductive Event
  | askedQuestion (idx : Nat) (question : List Nat)
  | savedResults (rows : List StoredRow)
  | finalReport (total_score : Int) (max_score : Nat)
deriving DecidableEq

/-- The question loop of lines 104-132: the events it displays, the
`responses` dict as it stands when the loop ends, and the exception that
aborted it, if any. An iteration first shows the question header
(line 105) and then executes `recognizer = sr.Recognizer()` (line 108) —
outside the try that begins at line 111 — which raises NameError because
the name `sr` is unbound (line 6 imports the module without the `as sr`
alias). So the loop completes normally only when the frame has no rows,
and otherwise aborts during its first iteration, before any capture,
scoring or dict assignment happens. -/
def interviewLoop (rows : List (List Nat × List Nat)) (idx : Nat)
    (responses : Responses) : List Event × Responses × Option String :=
  match rows with
  | [] => ([], responses, none)
  | (q, _) :: _ => ([.askedQuestion idx q], responses, some ("NameError"))

/-- Line 138: `sum(score for _, score in responses.values())`. -/
def total_score (responses : Responses) : Int :=
  (responses.map (fun kv => kv.2.2)).sum

/-- Lines 100-142 of `main`, given the loaded frame: the candidate-name
guard of line 102, then the question loop (lines 104-132). When the loop
completes without an exception, the database write of line 135 and the
final report of lines 138-139 follow, the latter displaying the total of
line 138 over `len(questions_df) * 10`; when the loop raises, the
exception propagates out of `main`, which has no handler, and is returned
as the second component. With a falsy (empty) name nothing at all
happens. -/
def mainTrace (candidate_name : List Nat) (df : DataFrame) :
    List Event × Option String :=
  if pyTruthy candidate_name then
    match interviewLoop df.rows 0 [] with
    | (evs, responses, none) =>
        (evs ++ [.savedResults (save_results candidate_name responses),
                 .finalReport (total_score responses) (df.rows.length * 10)],
         none)
    | (evs, _, some exc) => (evs, some exc)
  else ([], none)

/-- A status code in the HTTP success class 2xx. -/
def isSuccessStatus (s : Nat) : Bool := decide (200 ≤ s) && decide (s < 300)

/-! ## Helper lemmas -/

theorem isSpace_lowerCp (c : Nat) : isSpace (lowerCp c) = isSpace c := by
  unfold lowerCp isSpace
  split
  · rename_i h
    have h1 : ((c + 32) == 32) = false := by
      simp only [beq_eq_false_iff_ne, ne_eq]; omega
    have h2 : decide (c + 32 ≤ 13) = false := by
      simp only [decide_eq_false_iff_not]; omega
    have h3 : (c == 32) = false := by
      simp only [beq_eq_false_iff_ne, ne_eq]; omega
    have h4 : decide (c ≤ 13) = false := by
      simp only [decide_eq_false_iff_not]; omega
    simp [h1, h2, h3, h4]
  · rfl

theorem lstrip_pyLower (s : List Nat) : lstrip (pyLower s) = pyLower (lstrip s) := by
  induction s with
  | nil => rfl
  | cons c cs ih =>
      simp only [pyLower, List.map_cons, lstrip, isSpace_lowerCp]
      by_cases h : isSpace c
      · simpa [h, pyLower] using ih
      · simp [h, pyLower]

theorem pyLower_reverse (s : List Nat) : pyLower s.reverse = (pyLower s).reverse := by
  simp [pyLower]

/-- Lower-casing commutes with stripping, so "lower then strip" (line 84 of
the source) and "strip then lower" (the spec's wording) agree. -/
theorem pyStrip_pyLower (s : List Nat) : pyStrip (pyLower s) = pyLower (pyStrip s) := by
  unfold pyStrip
  rw [← pyLower_reverse, lstrip_pyLower, ← pyLower_reverse, lstrip_pyLower]

/-- Unfolding of `load_questions` when the document exists. -/
theorem load_questions_eq (df : DataFrame) :
    load_questions true df =
      if pyStr ("Question") ∉ df.columns.map pyStrip ∨
         pyStr ("Answer") ∉ df.columns.map pyStrip
      then .error .keyError
      else .ok ⟨df.columns.map pyStrip, df.rows⟩ := rfl

/-! ## Claims -/

/-- C1: with the model disabled (use_ai=false), `score_response` returns 10
exactly when the two answers are equal after trimming surrounding
whitespace and lower-casing, and 0 otherwise, for every remote reply. -/
theorem exact_match_scoring (a b : List Nat) (r : HttpResponse) :
    (score_response a b false r).1 =
      if pyLower (pyStrip a) = pyLower (pyStrip b) then 10 else 0 := by
  simp only [score_response, Bool.false_eq_true, if_false, pyStrip_pyLower]

/-- C10: with the model disabled, `score_response` is symmetric in the
candidate answer and the reference answer. -/
theorem exact_match_symmetric (a b : List Nat) (r : HttpResponse) :
    (score_response a b false r).1 = (score_response b a false r).1 := by
  simp only [score_response, Bool.false_eq_true, if_false]
  by_cases h : pyStrip (pyLower a) = pyStrip (pyLower b)
  · rw [if_pos h, if_pos h.symm]
  · rw [if_neg h, if_neg (fun hba => h hba.symm)]

/-- C2: with the model enabled, `score_response` always returns an integer
in [0, 10], whatever the status code and completion text of the reply; a
reply of "15" on a 200 status yields 10, and any parsed negative value
yields 0. -/
theorem ai_score_clamped :
    (∀ (u c : List Nat) (r : HttpResponse),
        0 ≤ (score_response u c true r).1 ∧ (score_response u c true r).1 ≤ 10) ∧
    (∀ (u c : List Nat) (r : HttpResponse),
        r.status_code = 200 → r.completion = pyStr ("15") →
        (score_response u c true r).1 = 10) ∧
    (∀ (u c : List Nat) (r : HttpResponse) (z : Int),
        r.status_code = 200 → pyInt (pyStrip r.completion) = some z → z < 0 →
        (score_response u c true r).1 = 0) := by
  refine ⟨fun u c r => ?_, fun u c r hs hc => ?_, fun u c r z hs hp hz => ?_⟩
  · by_cases hs : r.status_code = 200
    · rcases hp : pyInt (pyStrip r.completion) with _ | z
      · simp [score_response, hs, hp]
      · simp only [score_response, hs, beq_self_eq_true, if_true, hp]
        constructor
        · exact le_min (le_max_right z 0) (by norm_num)
        · exact min_le_right _ 10
    · simp [score_response, hs]
  · have hparse : pyInt (pyStrip (pyStr ("15"))) = some 15 := by decide
    simp [score_response, hs, hc, hparse]
  · have hmax : max z 0 = 0 := max_eq_right hz.le
    simp [score_response, hs, hp, hmax]

/-- Witness for C2 at concrete replies: completion "15" scores 10,
completion "-3" scores 0. -/
theorem ai_score_clamped_witness :
    (score_response [] [] true ⟨200, [], pyStr ("15")⟩).1 = 10 ∧
    (score_response [] [] true ⟨200, [], pyStr ("-3")⟩).1 = 0 := by
  constructor
  · exact ai_score_clamped.2.1 [] [] ⟨200, [], pyStr ("15")⟩ rfl rfl
  · exact ai_score_clamped.2.2 [] [] ⟨200, [], pyStr ("-3")⟩ (-3) rfl (by decide)
      (by decide)

/-- C3: with the model enabled, a reply whose completion text does not
parse as an integer scores 0 (and the function returns normally, with a
warning recorded, rather than raising: the ValueError of line 77 is caught
in the function). -/
theorem unparseable_reply_scores_zero (u c : List Nat) (r : HttpResponse)
    (hp : pyInt (pyStrip r.completion) = none) :
    (score_response u c true r).1 = 0 ∧
    (r.status_code = 200 →
      score_response u c true r =
        (0, some (.unexpectedResponse (pyStrip r.completion)))) := by
  by_cases hs : r.status_code = 200
  · simp [score_response, hs, hp]
  · simp [score_response, hs]

/-- Witness for C3 at the concrete completion "7.5". -/
theorem unparseable_reply_scores_zero_witness :
    (score_response [] [] true ⟨200, [], pyStr ("7.5")⟩).1 = 0 ∧
    score_response [] [] true ⟨200, [], pyStr ("7.5")⟩ =
      (0, some (.unexpectedResponse (pyStrip (pyStr ("7.5"))))) := by
  have h := unparseable_reply_scores_zero [] [] ⟨200, [], pyStr ("7.5")⟩ (by decide)
  exact ⟨h.1, h.2 rfl⟩

/-- C4: with the model enabled, any reply outside the HTTP success class
scores 0, with the status code and body recorded in the warning, and the
function returns normally. -/
theorem transport_error_scores_zero (u c : List Nat) (r : HttpResponse)
    (h : isSuccessStatus r.status_code = false) :
    score_response u c true r = (0, some (.apiError r.status_code r.text)) := by
  have hne : r.status_code ≠ 200 := by
    intro he
    rw [he] at h
    exact absurd h (by decide)
  simp [score_response, hne]

/-- Witness for C4 at the concrete status 500. -/
theorem transport_error_scores_zero_witness :
    score_response [] [] true ⟨500, pyStr ("oops"), []⟩ =
      (0, some (.apiError 500 (pyStr ("oops")))) := by
  exact transport_error_scores_zero [] [] ⟨500, pyStr ("oops"), []⟩ (by decide)

/-- C5: the loader raises FileNotFoundError when the document is absent,
raises KeyError when, after trimming the column names, either required
column is missing, and returns the (renamed) frame when both are
present. -/
theorem load_questions_error_policy (e : Bool) (df : DataFrame) :
    (e = false → load_questions e df = .error .fileNotFound) ∧
    (e = true →
      (pyStr ("Question") ∉ df.columns.map pyStrip ∨
       pyStr ("Answer") ∉ df.columns.map pyStrip) →
      load_questions e df = .error .keyError) ∧
    (e = true → pyStr ("Question") ∈ df.columns.map pyStrip →
      pyStr ("Answer") ∈ df.columns.map pyStrip →
      load_questions e df = .ok ⟨df.columns.map pyStrip, df.rows⟩) := by
  refine ⟨fun he => ?_, fun he hmiss => ?_, fun he hq ha => ?_⟩
  · subst he; rfl
  · subst he
    rw [load_questions_eq, if_pos hmiss]
  · subst he
    have hcond : ¬(pyStr ("Question") ∉ df.columns.map pyStrip ∨
        pyStr ("Answer") ∉ df.columns.map pyStrip) := by
      push_neg
      exact ⟨hq, ha⟩
    rw [load_questions_eq, if_neg hcond]

/-- Witness for C5: a missing file, a frame missing the Answer column, and
a frame carrying both required columns (one padded with whitespace). -/
theorem load_questions_error_policy_witness :
    load_questions false ⟨[pyStr ("Question"), pyStr ("Answer")], []⟩ =
      .error .fileNotFound ∧
    load_questions true ⟨[pyStr ("Question"), pyStr ("Topic")], []⟩ =
      .error .keyError ∧
    load_questions true ⟨[pyStr (" Question "), pyStr ("Answer")], []⟩ =
      .ok ⟨[pyStr ("Question"), pyStr ("Answer")], []⟩ := by
  refine ⟨(load_questions_error_policy false _).1 rfl,
    (load_questions_error_policy true _).2.1 rfl (by decide), ?_⟩
  have h := (load_questions_error_policy true
    ⟨[pyStr (" Question "), pyStr ("Answer")], []⟩).2.2 rfl (by decide) (by decide)
  rw [h]
  rfl

/-- C6 fails on the code: the header check of line 27 compares with Python
`in`, which is case-sensitive, so the headers "question" and "answer"
(lower-case, no surrounding whitespace) are rejected with a KeyError even
though they match the required names up to letter case. -/
theorem lowercase_headers_rejected :
    load_questions true ⟨[pyStr ("question"), pyStr ("answer")], []⟩ =
      .error .keyError := by
  rfl

/-- C6 (amended): the required-column check is whitespace-insensitive but
case-sensitive: loading succeeds exactly when the trimmed headers contain
the exact strings "Question" and "Answer". -/
theorem header_match_after_trim (df : DataFrame) :
    (∃ d, load_questions true df = .ok d) ↔
      pyStr ("Question") ∈ df.columns.map pyStrip ∧
      pyStr ("Answer") ∈ df.columns.map pyStrip := by
  by_cases hq : pyStr ("Question") ∈ df.columns.map pyStrip
  · by_cases ha : pyStr ("Answer") ∈ df.columns.map pyStrip
    · simp [load_questions, hq, ha]
    · simp [load_questions, hq, ha]
  · simp [load_questions, hq]

/-- C7 concerns a claim the code violates: every call of
`transcribe_audio` raises NameError at its first statement, because the
name `sr` is never bound at module scope (line 6 imports the module
without the `as sr` alias), so no input — in particular neither of the two
recognition failures the handlers of lines 39-44 were written for — can
reach the code that would return the empty string. -/
theorem transcribe_audio_always_raises (audio : RecognizeOutcome) :
    transcribe_audio audio = .raises ("NameError") := by
  rfl

/-- C8: whenever the question loop has completed without an exception and
the session reaches finalization, the final report it ends with displays
exactly the sum of the scores held in the response mapping as the total,
and 10 times the number of question rows as the maximum. (Because of the
NameError of line 108 the loop completes only for a frame with no rows;
see the C7 analysis.) -/
theorem final_report_totals (name : List Nat) (df : DataFrame)
    (evs : List Event) (responses : Responses)
    (hname : name ≠ [])
    (hloop : interviewLoop df.rows 0 [] = (evs, responses, none)) :
    (mainTrace name df).1.getLast? =
      some (.finalReport ((responses.map (fun kv => kv.2.2)).sum)
        (10 * df.rows.length)) := by
  have ht : pyTruthy name = true := by
    simp [pyTruthy, hname]
  simp [mainTrace, ht, hloop, total_score, Nat.mul_comm]

/-- Witness for C8: a session over a frame with no question rows reaches
finalization and displays a total of 0 over a maximum of 0. -/
theorem final_report_totals_witness :
    (mainTrace (pyStr ("Ada"))
        ⟨[pyStr ("Question"), pyStr ("Answer")], []⟩).1.getLast? =
      some (.finalReport 0 0) := by
  exact final_report_totals (pyStr ("Ada"))
    ⟨[pyStr ("Question"), pyStr ("Answer")], []⟩ [] [] (by decide) rfl

/-- C9: with an empty candidate name the session produces no events and
raises no exception — no question is shown, nothing is captured, scored,
recorded or persisted — and, conversely, a session that did anything at
all had a nonempty name. -/
theorem no_loop_without_name (df : DataFrame) :
    mainTrace [] df = ([], none) ∧
    ∀ name : List Nat, mainTrace name df ≠ ([], none) → name ≠ [] := by
  constructor
  · rfl
  · intro name h hn
    subst hn
    exact h rfl

/-- Witness for C9: on a one-question frame the empty name yields the
empty trace, and the session of the candidate "Bob" over the same frame —
which does show the first question before the line-108 NameError aborts
it — has a nonempty name. -/
theorem no_loop_without_name_witness :
    mainTrace [] ⟨[pyStr ("Question"), pyStr ("Answer")],
      [(pyStr ("What is 2+2?"), pyStr ("4"))]⟩ = ([], none) ∧
    pyStr ("Bob") ≠ [] := by
  refine ⟨(no_loop_without_name _).1, ?_⟩
  exact (no_loop_without_name ⟨[pyStr ("Question"), pyStr ("Answer")],
    [(pyStr ("What is 2+2?"), pyStr ("4"))]⟩).2 (pyStr ("Bob")) (by decide)

end AIInterview
